import Mathlib

/-!
Shallow embedding of the procedural storybook generator of this repository
(src/main.py together with the output schemas of src/schemas.py).

Python strings are Lean `String`s, `Optional[str]` is `Option String`, lists
are Lean `List`s.  The process-wide pseudorandom generator (`random.choice`)
is modelled by an explicit stream of draws (`Rng := List Nat`): each call to
`random.choice(xs)` consumes one draw `n` from the stream and returns
`xs[n % len(xs)]`.  All properties are proved for every possible stream, so
they hold for every behaviour of the real generator.
-/

set_option maxRecDepth 8000

namespace Storybook

/-- Stream of pseudorandom draws standing in for Python's process-wide
`random` module. -/
abbrev Rng := List Nat

/-- Model of `random.choice(xs)`: consume one draw from the stream and index
into the list with it (modulo the length).  The default `d` is never used at
any call site of the program, because every `random.choice` in src/main.py is
applied to a non-empty list. -/
def rchoice {α : Type} (xs : List α) (d : α) (r : Rng) : α × Rng :=
  (xs.getD (r.headD 0 % xs.length) d, r.tail)

/-- Python truthiness pattern `opt or fallback` for an optional string:
both `None` and the empty string select the fallback. -/
def pyOr (o : Option String) (fallback : String) : String :=
  match o with
  | some s => if s = "" then fallback else s
  | none => fallback

/-- Python `sep.join(xs)`. -/
def joinSep (sep : String) : List String → String
  | [] => ""
  | [x] => x
  | x :: y :: xs => x ++ sep ++ joinSep sep (y :: xs)

/-- Python `str.lower` (ASCII letters, which is all the program compares). -/
def pyLower (s : String) : String := ⟨s.data.map Char.toLower⟩

/-- Python `str.strip`: drop leading and trailing whitespace. -/
def pyStrip (s : String) : String :=
  ⟨((s.data.dropWhile Char.isWhitespace).reverse.dropWhile Char.isWhitespace).reverse⟩

/-- Helper for Python `str.title`: upper-case every letter that follows a
non-letter, lower-case every letter that follows a letter.  The boolean
records whether the previous character was a letter. -/
def pyTitleAux : List Char → Bool → List Char
  | [], _ => []
  | c :: cs, prevAlpha =>
    if c.isAlpha then
      (if prevAlpha then c.toLower else c.toUpper) :: pyTitleAux cs true
    else
      c :: pyTitleAux cs false

/-- Python `str.title` (ASCII). -/
def pyTitle (s : String) : String := ⟨pyTitleAux s.data false⟩

/-- Helper for Python `str.replace(pat, repl)`: left-to-right, non-overlapping
replacement.  The counter holds how many characters of a just-matched
occurrence still have to be consumed without being emitted. -/
def replaceGo (pat repl : List Char) : List Char → Nat → List Char
  | [], _ => []
  | _ :: cs, skip + 1 => replaceGo pat repl cs skip
  | c :: cs, 0 =>
    if pat ≠ [] ∧ pat.isPrefixOf (c :: cs) then
      repl ++ replaceGo pat repl cs (pat.length - 1)
    else
      c :: replaceGo pat repl cs 0

/-- Python `s.replace(pat, repl)` (for the non-empty patterns the program
uses). -/
def pyReplace (s pat repl : String) : String :=
  ⟨replaceGo pat.data repl.data s.data 0⟩

/-- The fixed palette table `PALETTES` of src/main.py (lines 63-68). -/
def PALETTES : List (String × String × String) :=
  [("#f0abfc", "#60a5fa", "#c4b5fd"),
   ("#fda4af", "#a78bfa", "#7dd3fc"),
   ("#bef264", "#34d399", "#93c5fd"),
   ("#fef08a", "#f472b6", "#93c5fd")]

/-- The fixed list `seeds` of chapter-title seed phrases inside
`_make_chapter_title` (src/main.py lines 72-76). -/
def chapterTitleSeeds : List String :=
  ["A New Beginning", "Whispers in the Wind", "The Hidden Path", "A Promise at Dawn",
   "Shadows and Starlight", "Secrets of the {setting}", "Turning the Tide", "The Heart Remembers",
   "Trials of Courage", "Home Again"]

/-- `_make_chapter_title` of src/main.py (lines 71-82).  `if style:` and
`if tone:` are Python truthiness tests, false for `None` and for the empty
string. -/
def _make_chapter_title (title : String) (idx : Nat) (style tone : Option String) : String :=
  let base := chapterTitleSeeds.getD ((idx - 1) % chapterTitleSeeds.length) ""
  let base :=
    match style with
    | some s => if s = "" then base else base ++ " — " ++ pyTitle s
    | none => base
  let base :=
    match tone with
    | some t => if t = "" then base else base ++ " (" ++ pyTitle t ++ ")"
    | none => base
  "Chapter " ++ toString idx ++ ": " ++ base

/-- The fixed list of decorative phrases drawn inside `_paragraph`
(src/main.py lines 93-96). -/
def adornPhrases : List String :=
  ["sun-dappled paths", "quiet lanterns", "soft thunder beyond the hills",
   "maps scribbled in the margins", "a pocket full of brave ideas"]

/-- The voice dictionary lookup of `_paragraph` (src/main.py lines 88-92):
`{...}.get(audience.lower(), "gentle and curious")`. -/
def voiceFor (audience : String) : String :=
  if pyLower audience = "children" then "gentle and curious"
  else if pyLower audience = "teens" then "brisk and adventurous"
  else if pyLower audience = "adults" then "lyrical and reflective"
  else "gentle and curious"

/-- `_paragraph` of src/main.py (lines 85-100). -/
def _paragraph (theme setting : Option String) (audience : String)
    (characters : List String) (r : Rng) : String × Rng :=
  let who := if characters = [] then "a small band of friends" else joinSep ", " (characters.take 3)
  let place := pyOr setting "a place where the sky feels close and the air hums with possibility"
  let voice := voiceFor audience
  let ad := rchoice adornPhrases "" r
  ("With a " ++ voice ++ " voice, the tale leans into " ++ pyOr theme "wonder" ++
     ", as " ++ who ++ " step through " ++ place ++ ". They carry " ++ ad.1 ++
     ", and with each breath they learn that courage grows when it is shared.", ad.2)

/-- The arc classification computed at the top of `_chapter_text`
(src/main.py line 104). -/
def arcLabel (idx total : Nat) : String :=
  if idx = 1 then "setup"
  else if idx = total then "climax"
  else if idx < total then "escalation"
  else "resolution"

/-- The beat-sentence dictionary of `_chapter_text` (src/main.py lines
106-111), written as a total function; the program only ever indexes it with
one of its four keys, and the final branch is the `resolution` entry. -/
def beats (key : String) : String :=
  if key = "setup" then "They meet a gentle challenge that hints at something larger."
  else if key = "escalation" then "The path grows twisty; trust and patience are tested in warm, human ways."
  else if key = "climax" then "At last, the heart of the problem opens—difficult, yet navigable with kindness."
  else "With lessons gathered, the world feels wider, and home feels new."

/-- `_chapter_text` of src/main.py (lines 103-117).  The beat sentence is
looked up at `arc if idx < total else "resolution"`; the dialogue consumes two
draws (speaker, then friend) only when the character list is non-empty. -/
def _chapter_text (idx total : Nat) (theme setting : Option String) (audience : String)
    (characters : List String) (r : Rng) : String × Rng :=
  let arc := arcLabel idx total
  let ir := _paragraph theme setting audience characters r
  let beat := beats (if idx < total then arc else "resolution")
  if characters = [] then
    (ir.1 ++ " " ++ beat ++ " ", ir.2)
  else
    let sp := rchoice characters "" ir.2
    let pool := characters.filter (fun c => c != sp.1)
    let pool2 := if pool = [] then characters else pool
    let fr := rchoice pool2 "" sp.2
    (ir.1 ++ " " ++ beat ++
       ("\n\n\"We can do this together,\" " ++ sp.1 ++ " says. \"We always could,\" " ++
          fr.1 ++ " replies."), fr.2)

/-- `_initials` of src/main.py (lines 120-124): upper-cased first character of
each non-blank name, at most three of them, with the star fallback. -/
def _initials (chars : List String) : String :=
  if chars = [] then "★"
  else
    let initials := (chars.filter (fun c => pyStrip c != "")).map
      (fun c => String.singleton (Char.toUpper ((pyStrip c).data.headD ' ')))
    let joined := String.join (initials.take 3)
    if joined = "" then "★" else joined

/-- The UTF-8 encoding of a character as a list of byte values, as Python
uses when percent-encoding. -/
def utf8EncodeCharNat (c : Char) : List Nat :=
  let v := c.toNat
  if v < 128 then [v]
  else if v < 2048 then [192 + v / 64, 128 + v % 64]
  else if v < 65536 then [224 + v / 4096, 128 + (v / 64) % 64, 128 + v % 64]
  else [240 + v / 262144, 128 + (v / 4096) % 64, 128 + (v / 64) % 64, 128 + v % 64]

/-- Upper-case hexadecimal digit for a value below 16. -/
def hexDigit (n : Nat) : Char :=
  if n < 10 then Char.ofNat (48 + n) else Char.ofNat (55 + n)

/-- Percent-encoding of one byte, `%XX` with upper-case hex. -/
def quoteByte (b : Nat) : String :=
  String.mk ['%', hexDigit (b / 16), hexDigit (b % 16)]

/-- Python `urllib.parse.quote(s)` with the default safe set: ASCII letters,
digits, `_.-~` and `/` pass through, everything else is percent-encoded from
its UTF-8 bytes. -/
def pyQuote (s : String) : String :=
  String.join (s.data.map (fun c =>
    if c.isAlphanum || c = '_' || c = '.' || c = '-' || c = '~' || c = '/'
    then String.singleton c
    else String.join ((utf8EncodeCharNat c).map quoteByte)))

/-- `_svg_data_url` of src/main.py (lines 127-128). -/
def _svg_data_url (svg : String) : String :=
  "data:image/svg+xml;charset=utf-8," ++ pyQuote svg

/-- Fixed text of the chapter SVG template from the opening tag up to the
gradient id (src/main.py line 135-137). -/
def chapterSvgA : String :=
  "<svg xmlns=\x27http://www.w3.org/2000/svg\x27 width=\x271200\x27 height=\x27675\x27 viewBox=\x270 0 1200 675\x27>\n  <defs>\n    <linearGradient id=\x27g"

/-- Fixed text between the gradient id and the first palette colour. -/
def chapterSvgB : String :=
  "\x27 x1=\x270\x27 y1=\x270\x27 x2=\x271\x27 y2=\x271\x27>\n      <stop offset=\x270%\x27 stop-color=\x27"

/-- Fixed text between the first and the second palette colour. -/
def chapterSvgC : String :=
  "\x27/>\n      <stop offset=\x2750%\x27 stop-color=\x27"

/-- Fixed text between the second and the third palette colour. -/
def chapterSvgD : String :=
  "\x27/>\n      <stop offset=\x27100%\x27 stop-color=\x27"

/-- Fixed text from the third palette colour to the gradient reference of the
background rectangle. -/
def chapterSvgE : String :=
  "\x27/>\n    </linearGradient>\n  </defs>\n  <rect width=\x271200\x27 height=\x27675\x27 fill=\x27url(#g"

/-- Fixed text from the background rectangle through the decorative circles
up to the initials glyph (src/main.py lines 143-149). -/
def chapterSvgF : String :=
  ")\x27 />\n  <g opacity=\x270.2\x27>\n    <circle cx=\x27200\x27 cy=\x27200\x27 r=\x27140\x27 fill=\x27white\x27/>\n    <circle cx=\x271000\x27 cy=\x27140\x27 r=\x27110\x27 fill=\x27white\x27/>\n    <circle cx=\x27900\x27 cy=\x27520\x27 r=\x27160\x27 fill=\x27white\x27/>\n  </g>\n  <text x=\x2750%\x27 y=\x2748%\x27 dominant-baseline=\x27middle\x27 text-anchor=\x27middle\x27 font-family=\x27Inter, system-ui, sans-serif\x27 font-weight=\x27800\x27 font-size=\x27140\x27 fill=\x27rgba(0,0,0,0.25)\x27>"

/-- Opening of the first caption text element of the chapter SVG, up to and
including the word `Chapter ` (src/main.py line 150). -/
def chapterCaption1Pre : String :=
  "  <text x=\x2750%\x27 y=\x2775%\x27 dominant-baseline=\x27middle\x27 text-anchor=\x27middle\x27 font-family=\x27Inter, system-ui, sans-serif\x27 font-weight=\x27700\x27 font-size=\x2736\x27 fill=\x27rgba(0,0,0,0.85)\x27>Chapter "

/-- Opening of the second caption text element of the chapter SVG
(src/main.py line 151). -/
def chapterCaption2Pre : String :=
  "  <text x=\x2750%\x27 y=\x2784%\x27 dominant-baseline=\x27middle\x27 text-anchor=\x27middle\x27 font-family=\x27Inter, system-ui, sans-serif\x27 font-weight=\x27600\x27 font-size=\x2728\x27 fill=\x27rgba(0,0,0,0.85)\x27>"

/-- The complete first caption line of the chapter SVG:
`Chapter {idx} / {total}` inside its text element. -/
def captionLine1 (idx total : Nat) : String :=
  chapterCaption1Pre ++ toString idx ++ " / " ++ toString total ++ "</text>"

/-- A second caption line of the chapter SVG with the given caption text
inside its text element. -/
def captionLine2 (caption : String) : String :=
  chapterCaption2Pre ++ caption ++ "</text>"

/-- The SVG document composed by `_chapter_image_svg` (src/main.py lines
134-157): the concatenation of the stripped f-string template with the
palette colours, the initials glyph, the two caption lines — the second one
being `title.replace("Chapter ", "")` where `title` is the function's first
argument — the verbatim prompt tooltip, and the closing tag. -/
def chapterSvgDoc (title : String) (idx total : Nat) (prompt : String)
    (chars : List String) (p : String × String × String) : String :=
  chapterSvgA ++ toString idx ++ chapterSvgB ++ p.1 ++ chapterSvgC ++ p.2.1 ++
    chapterSvgD ++ p.2.2 ++ chapterSvgE ++ toString idx ++ chapterSvgF ++
    _initials chars ++ "</text>" ++ "\n" ++ captionLine1 idx total ++ "\n" ++
    captionLine2 (pyReplace title "Chapter " "") ++ "\n" ++
    "<title>" ++ prompt ++ "</title>" ++ "\n" ++ "</svg>"

/-- `_chapter_image_svg` of src/main.py (lines 131-158): draw a palette, then
encode the composed document as a data URL. -/
def _chapter_image_svg (title : String) (idx total : Nat) (prompt : String)
    (chars : List String) (r : Rng) : String × Rng :=
  let pr := rchoice PALETTES ("", "", "") r
  (_svg_data_url (chapterSvgDoc title idx total prompt chars pr.1), pr.2)

/-- Fixed text of the cover SVG template (src/main.py lines 164-168); the
cover f-string is not stripped, so it starts with a newline. -/
def coverSvgA : String :=
  "\n<svg xmlns=\x27http://www.w3.org/2000/svg\x27 width=\x271200\x27 height=\x271600\x27 viewBox=\x270 0 1200 1600\x27>\n  <defs>\n    <linearGradient id=\x27gcover\x27 x1=\x270\x27 y1=\x270\x27 x2=\x271\x27 y2=\x271\x27>\n      <stop offset=\x270%\x27 stop-color=\x27"

/-- Fixed text between the first and the second cover palette colour (the
cover gradient's middle stop sits at 60%). -/
def coverSvgB : String :=
  "\x27/>\n      <stop offset=\x2760%\x27 stop-color=\x27"

/-- Fixed text between the second and the third cover palette colour. -/
def coverSvgC : String :=
  "\x27/>\n      <stop offset=\x27100%\x27 stop-color=\x27"

/-- Fixed text from the third cover palette colour through the cover
rectangle and circles up to the initials glyph (src/main.py lines 171-179). -/
def coverSvgD : String :=
  "\x27/>\n    </linearGradient>\n  </defs>\n  <rect width=\x271200\x27 height=\x271600\x27 fill=\x27url(#gcover)\x27 />\n  <g opacity=\x270.15\x27>\n    <circle cx=\x27300\x27 cy=\x27400\x27 r=\x27220\x27 fill=\x27white\x27/>\n    <circle cx=\x271000\x27 cy=\x27300\x27 r=\x27160\x27 fill=\x27white\x27/>\n    <circle cx=\x27800\x27 cy=\x271200\x27 r=\x27260\x27 fill=\x27white\x27/>\n  </g>\n  <text x=\x2750%\x27 y=\x2745%\x27 dominant-baseline=\x27middle\x27 text-anchor=\x27middle\x27 font-family=\x27Inter, system-ui, sans-serif\x27 font-weight=\x27900\x27 font-size=\x27220\x27 fill=\x27rgba(0,0,0,0.2)\x27>"

/-- Fixed text between the cover initials glyph and the cover title caption
(src/main.py line 180). -/
def coverSvgE : String :=
  "</text>\n  <text x=\x2750%\x27 y=\x2768%\x27 dominant-baseline=\x27middle\x27 text-anchor=\x27middle\x27 font-family=\x27Inter, system-ui, sans-serif\x27 font-weight=\x27800\x27 font-size=\x2764\x27 fill=\x27rgba(0,0,0,0.9)\x27>"

/-- Fixed text between the cover title caption and the tooltip, carrying the
fixed subtitle (src/main.py lines 181-182). -/
def coverSvgF : String :=
  "</text>\n  <text x=\x2750%\x27 y=\x2776%\x27 dominant-baseline=\x27middle\x27 text-anchor=\x27middle\x27 font-family=\x27Inter, system-ui, sans-serif\x27 font-weight=\x27600\x27 font-size=\x2724\x27 fill=\x27rgba(0,0,0,0.85)\x27>An illustrated storybook</text>\n  <title>"

/-- Closing text of the cover SVG template (src/main.py lines 182-184). -/
def coverSvgG : String := "</title>\n</svg>\n"

/-- The SVG document composed by `_cover_image_svg` (src/main.py lines
161-185). -/
def coverSvgDoc (title prompt : String) (chars : List String)
    (p : String × String × String) : String :=
  coverSvgA ++ p.1 ++ coverSvgB ++ p.2.1 ++ coverSvgC ++ p.2.2 ++ coverSvgD ++
    _initials chars ++ coverSvgE ++ title ++ coverSvgF ++ prompt ++ coverSvgG

/-- `_cover_image_svg` of src/main.py (lines 161-185). -/
def _cover_image_svg (title prompt : String) (chars : List String) (r : Rng) : String × Rng :=
  let pr := rchoice PALETTES ("", "", "") r
  (_svg_data_url (coverSvgDoc title prompt chars pr.1), pr.2)

/-- `_image_prompt_for_chapter` of src/main.py (lines 188-193).  Note the
truthiness here is on the joined string, not on the list. -/
def _image_prompt_for_chapter (idx : Nat) (title : String) (theme setting : Option String)
    (chars : List String) (style : Option String) : String :=
  let whoJ := joinSep ", " (chars.take 3)
  let who := if whoJ = "" then "a small band of friends" else whoJ
  "Illustrate chapter " ++ toString idx ++ " titled \x27" ++ title ++ "\x27. Show " ++ who ++
    " in " ++ pyOr setting "a cozy imaginative setting" ++ ", evoking " ++
    pyOr theme "wonder" ++ " in a " ++ pyOr style "storybook" ++
    " style. Soft lighting, warm colors, inclusive and kind."

/-- `GenerateRequest` of src/main.py (lines 24-36), with the declared
defaults; the boundary validator constrains `chapters` to `[1, 15]`. -/
structure GenerateRequest where
  title : String
  theme : Option String := none
  audience : String := "children"
  style : Option String := none
  tone : Option String := none
  moral : Option String := none
  setting : Option String := none
  language : String := "en"
  characters : List String := []
  chapters : Nat := 5
  save : Bool := true
  include_images : Bool := true

/-- `Chapter` of src/schemas.py (lines 10-15). -/
structure Chapter where
  index : Nat
  title : String
  text : String
  image_prompt : Option String := none
  image_svg : Option String := none

instance : Inhabited Chapter := ⟨{ index := 0, title := "", text := "" }⟩

/-- `Story` of src/schemas.py (lines 17-30), including the schema-declared
default for `generator_version`. -/
structure Story where
  title : String
  theme : Option String := none
  audience : String := "children"
  style : Option String := none
  tone : Option String := none
  moral : Option String := none
  setting : Option String := none
  language : String := "en"
  characters : List String := []
  chapters : List Chapter := []
  cover_prompt : Option String := none
  cover_image_svg : Option String := none
  generator_version : String := "1.1-images-local"

/-- The default value declared for `Story.generator_version` by the schema
(src/schemas.py line 30). -/
def storySchemaDefaultGeneratorVersion : String := "1.1-images-local"

/-- One iteration of the chapter loop of `generate_story` (src/main.py lines
198-211): title, text, prompt, and — only when `include_images` — the
illustration are built for chapter `i`; the palette draw of the illustration
is consumed only when `include_images` is set. -/
def mkChapter (req : GenerateRequest) (i : Nat) (r : Rng) : Chapter × Rng :=
  let c_title := _make_chapter_title req.title i req.style req.tone
  let tr := _chapter_text i req.chapters req.theme req.setting req.audience req.characters r
  let c_prompt := _image_prompt_for_chapter i c_title req.theme req.setting req.characters req.style
  let sv := _chapter_image_svg req.title i req.chapters c_prompt req.characters tr.2
  ({ index := i, title := c_title, text := tr.1,
     image_prompt := if req.include_images then some c_prompt else none,
     image_svg := if req.include_images then some sv.1 else none },
   if req.include_images then sv.2 else tr.2)

/-- The chapter loop `for i in range(1, req.chapters + 1)` of
`generate_story`, threading the random stream through the iterations. -/
def genLoop (req : GenerateRequest) : List Nat → Rng → List Chapter × Rng
  | [], r => ([], r)
  | i :: rest, r =>
    let cr := mkChapter req i r
    let res := genLoop req rest cr.2
    (cr.1 :: res.1, res.2)

/-- The cover prompt composed by `generate_story` (src/main.py lines
212-216). -/
def coverPromptFor (req : GenerateRequest) : String :=
  let cj := joinSep ", " req.characters
  "Illustrated cover in a cozy, luminous style. Title: \x27" ++ req.title ++
    "\x27. Theme: " ++ pyOr req.theme "wonder" ++ ". Setting: " ++
    pyOr req.setting "imaginative landscape" ++ ". Characters: " ++
    (if cj = "" then "a group of friends" else cj) ++ "."

/-- `generate_story` of src/main.py (lines 196-233). -/
def generate_story (req : GenerateRequest) (r : Rng) : Story :=
  let loop := genLoop req (List.range' 1 req.chapters) r
  let cover_prompt := coverPromptFor req
  let cover := _cover_image_svg req.title cover_prompt req.characters loop.2
  { title := req.title, theme := req.theme, audience := req.audience, style := req.style,
    tone := req.tone, moral := req.moral, setting := req.setting, language := req.language,
    characters := req.characters, chapters := loop.1,
    cover_prompt := some cover_prompt,
    cover_image_svg := if req.include_images then some cover.1 else none,
    generator_version := "1.1-local-images" }

/-- Substring containment of `m` in `s`, used to state what a generated
document contains. -/
def strContains (s m : String) : Prop :=
  ∃ pre post : String, s = pre ++ m ++ post

/-- The example request of the specification (section 8): three chapters,
two characters, images enabled by default. -/
def exampleRequest : GenerateRequest :=
  { title := "The Lantern Walk", chapters := 3, characters := ["Mira", "Obo"] }

/-- A minimal one-chapter request used as a concrete witness input. -/
def oneChapterRequest : GenerateRequest := { title := "W", chapters := 1 }

/-- Executable infix scan over character lists, used to settle substring
containment on concrete documents. -/
def infixCheck (pat : List Char) : List Char → Bool
  | [] => pat.isEmpty
  | c :: cs => pat.isPrefixOf (c :: cs) || infixCheck pat cs

/-- A `random.choice` over a non-empty list returns an element of that
list, whatever the draw. -/
theorem rchoice_mem {α : Type} (xs : List α) (d : α) (r : Rng) (h : xs ≠ []) :
    (rchoice xs d r).1 ∈ xs := by
  have hl : 0 < xs.length := List.length_pos.mpr h
  have hlt : r.headD 0 % xs.length < xs.length := Nat.mod_lt _ hl
  show xs.getD (r.headD 0 % xs.length) d ∈ xs
  rw [List.getD_eq_getElem xs d hlt]
  exact List.getElem_mem hlt

/-- Substring containment is infix containment of the underlying character
lists. -/
theorem strContains_data_iff (s m : String) :
    strContains s m ↔ m.data <:+: s.data := by
  constructor
  · rintro ⟨pre, post, rfl⟩
    exact ⟨pre.data, post.data, by simp [String.data_append]⟩
  · rintro ⟨p, q, h⟩
    refine ⟨⟨p⟩, ⟨q⟩, String.ext ?_⟩
    simp only [String.data_append]
    simpa using h.symm

/-- C5 (amended): the chapter title is `"Chapter {idx}: "` followed by the
seed phrase at position `(idx-1) mod 10` of the fixed 10-entry seed list,
with `" — {title-cased style}"` appended when `style` is given and non-empty
and `" ({title-cased tone})"` appended when `tone` is given and non-empty
(Python truthiness: an empty string behaves like an absent one); the result
depends on no other input and involves no randomness. -/
theorem make_chapter_title_formula (title : String) (idx : Nat) (style tone : Option String)
    (h : 1 ≤ idx) :
    _make_chapter_title title idx style tone =
      "Chapter " ++ toString idx ++ ": " ++
        (chapterTitleSeeds.getD ((idx - 1) % 10) "" ++
          (match style with
           | some s => if s = "" then "" else " — " ++ pyTitle s
           | none => "") ++
          (match tone with
           | some t => if t = "" then "" else " (" ++ pyTitle t ++ ")"
           | none => "")) ∧
    chapterTitleSeeds.length = 10 := by
  refine ⟨?_, rfl⟩
  have h10 : chapterTitleSeeds.length = 10 := rfl
  unfold _make_chapter_title
  rw [h10]
  rcases style with _ | s <;> rcases tone with _ | t <;>
    simp only [] <;> (try split_ifs) <;>
      simp [String.append_assoc, String.append_empty]

/-- Witness for the amended C5 at chapter index 5 with a style and no
tone. -/
theorem make_chapter_title_formula_witness :
    _make_chapter_title "T" 5 (some "fairy tale") none =
      "Chapter " ++ toString 5 ++ ": " ++
        (chapterTitleSeeds.getD ((5 - 1) % 10) "" ++
          (if ("fairy tale" : String) = "" then "" else " — " ++ pyTitle "fairy tale") ++ "") ∧
    chapterTitleSeeds.length = 10 :=
  make_chapter_title_formula "T" 5 (some "fairy tale") none (by decide)

/-- C5 counterexample to the claim as stated: for `style` given as the empty
string the code appends nothing, while the claimed formula appends the
em-dash separator; at index 1 with `style = some ""` the code yields
`"Chapter 1: A New Beginning"` and the claimed formula yields
`"Chapter 1: A New Beginning — "`. -/
theorem make_chapter_title_empty_style_counterexample :
    _make_chapter_title "T" 1 (some "") none = "Chapter 1: A New Beginning" ∧
    "Chapter " ++ toString 1 ++ ": " ++
        (chapterTitleSeeds.getD ((1 - 1) % 10) "" ++ (" — " ++ pyTitle "") ++ "") =
      "Chapter 1: A New Beginning — " ∧
    ("Chapter 1: A New Beginning" : String) ≠ "Chapter 1: A New Beginning — " := by
  refine ⟨rfl, rfl, by decide⟩

/-- C7: any audience whose lower-cased form is none of `children`, `teens`,
`adults` makes `_paragraph` behave exactly as it does for `children`
(same random draws, same output). -/
theorem paragraph_audience_fallback (theme setting : Option String) (audience : String)
    (chars : List String) (r : Rng)
    (h1 : pyLower audience ≠ "children") (h2 : pyLower audience ≠ "teens")
    (h3 : pyLower audience ≠ "adults") :
    _paragraph theme setting audience chars r = _paragraph theme setting "children" chars r := by
  unfold _paragraph voiceFor
  rw [if_neg h1, if_neg h2, if_neg h3, if_pos (by decide : pyLower "children" = "children")]

/-- Witness for C7 at the spec's example audience `robots`. -/
theorem paragraph_audience_fallback_witness :
    _paragraph none none "robots" ["Mira"] [] = _paragraph none none "children" ["Mira"] [] :=
  paragraph_audience_fallback none none "robots" ["Mira"] []
    (by decide) (by decide) (by decide)

/-- C8: the initials glyph is the concatenation of the upper-cased first
characters of the non-blank names, truncated to three characters, with the
fixed fallback `★` whenever that concatenation is empty (in particular for
the empty character list). -/
theorem initials_glyph (chars : List String) :
    _initials chars =
      (let glyph := String.join (((chars.filter (fun c => pyStrip c != "")).map
          (fun c => String.singleton (Char.toUpper ((pyStrip c).data.headD ' ')))).take 3);
       if glyph = "" then "★" else glyph) := by
  unfold _initials
  by_cases h : chars = []
  · subst h; rfl
  · simp only [if_neg h]

/-- C9: for every input — including empty title, prompt and character
strings — the chapter and cover illustration synthesizers return the prefix
`data:image/svg+xml;charset=utf-8,` followed by the percent-encoding of the
composed SVG document. -/
theorem svg_synthesizers_data_url (title prompt : String) (idx total : Nat)
    (chars : List String) (r r2 : Rng) :
    (∃ doc, (_chapter_image_svg title idx total prompt chars r).1 =
        "data:image/svg+xml;charset=utf-8," ++ pyQuote doc) ∧
    (∃ doc, (_cover_image_svg title prompt chars r2).1 =
        "data:image/svg+xml;charset=utf-8," ++ pyQuote doc) :=
  ⟨⟨chapterSvgDoc title idx total prompt chars (rchoice PALETTES ("", "", "") r).1, rfl⟩,
   ⟨coverSvgDoc title prompt chars (rchoice PALETTES ("", "", "") r2).1, rfl⟩⟩

/-- C10: every story returned by `generate_story` carries the constant
generator version `1.1-local-images`, which differs from the default
`1.1-images-local` declared by the Story schema. -/
theorem generator_version_constant (req : GenerateRequest) (r : Rng) :
    (generate_story req r).generator_version = "1.1-local-images" ∧
    (generate_story req r).generator_version ≠ storySchemaDefaultGeneratorVersion :=
  ⟨rfl, fun h => (by decide : ("1.1-local-images" : String) ≠ "1.1-images-local") h⟩

/-- C2: for every chapter `idx` of a request with `total` chapters, the beat
sentence of the chapter text is the beat-table entry at key
`arc if idx < total else "resolution"` with `arc` being `setup` for the first
chapter, `climax` for the last and `escalation` in between; for a one-chapter
request the computed arc label is `setup`, yet the beat used is the fixed
resolution sentence (the key is `resolution` because `idx < total` fails). -/
theorem chapter_beat_selection (idx total : Nat) (theme setting : Option String)
    (audience : String) (chars : List String) (r : Rng)
    (h1 : 1 ≤ idx) (h2 : idx ≤ total) :
    (∃ pre post, (_chapter_text idx total theme setting audience chars r).1 =
        pre ++ beats (if idx < total then
            (if idx = 1 then "setup" else if idx = total then "climax" else "escalation")
          else "resolution") ++ post) ∧
    arcLabel 1 1 = "setup" ∧
    beats "resolution" = "With lessons gathered, the world feels wider, and home feels new." := by
  refine ⟨?_, rfl, rfl⟩
  have hkey : (if idx < total then
        (if idx = 1 then "setup" else if idx = total then "climax" else "escalation")
      else "resolution") =
      (if idx < total then arcLabel idx total else "resolution") := by
    unfold arcLabel
    split_ifs <;> first | rfl | omega
  rw [hkey]
  by_cases hc : chars = []
  · refine ⟨(_paragraph theme setting audience chars r).1 ++ " ", " ", ?_⟩
    simp only [_chapter_text, if_pos hc]
    try simp [String.append_assoc]
  · refine ⟨(_paragraph theme setting audience chars r).1 ++ " ",
      "\n\n\"We can do this together,\" " ++
        (rchoice chars "" (_paragraph theme setting audience chars r).2).1 ++
        " says. \"We always could,\" " ++
        (rchoice (if chars.filter
              (fun c => c != (rchoice chars "" (_paragraph theme setting audience chars r).2).1) = []
            then chars
            else chars.filter
              (fun c => c != (rchoice chars "" (_paragraph theme setting audience chars r).2).1)) ""
          (rchoice chars "" (_paragraph theme setting audience chars r).2).2).1 ++
        " replies.", ?_⟩
    simp only [_chapter_text, if_neg hc]
    try simp [String.append_assoc]

/-- Witness for C2 at the one-chapter request: the single chapter's beat is
the resolution sentence. -/
theorem chapter_beat_selection_witness :
    (∃ pre post, (_chapter_text 1 1 none none "children" ["Mira", "Obo"] []).1 =
        pre ++ beats (if 1 < 1 then
            (if 1 = 1 then "setup" else if 1 = 1 then "climax" else "escalation")
          else "resolution") ++ post) ∧
    arcLabel 1 1 = "setup" ∧
    beats "resolution" = "With lessons gathered, the world feels wider, and home feels new." :=
  chapter_beat_selection 1 1 none none "children" ["Mira", "Obo"] [] (by decide) (by decide)

/-- C6: with a non-empty character list the chapter text ends with the quoted
exchange, prefixed by two newlines, between a speaker drawn from the
characters and a friend drawn from the characters left after removing the
speaker (the full list again when that removal leaves none); with an empty
character list the dialogue part is exactly one space and no exchange is
appended. -/
theorem chapter_dialogue (idx total : Nat) (theme setting : Option String)
    (audience : String) (chars : List String) (r : Rng) :
    (chars ≠ [] → ∃ speaker friend : String,
        speaker ∈ chars ∧
        friend ∈ (if chars.filter (fun c => c != speaker) = [] then chars
                  else chars.filter (fun c => c != speaker)) ∧
        (_chapter_text idx total theme setting audience chars r).1 =
          (_paragraph theme setting audience chars r).1 ++ " " ++
            beats (if idx < total then arcLabel idx total else "resolution") ++
            ("\n\n\"We can do this together,\" " ++ speaker ++ " says. \"We always could,\" " ++
              friend ++ " replies.")) ∧
    (chars = [] → (_chapter_text idx total theme setting audience chars r).1 =
        (_paragraph theme setting audience chars r).1 ++ " " ++
          beats (if idx < total then arcLabel idx total else "resolution") ++ " ") := by
  constructor
  · intro hc
    have hpool : (if chars.filter
          (fun c => c != (rchoice chars "" (_paragraph theme setting audience chars r).2).1) = []
        then chars
        else chars.filter
          (fun c => c != (rchoice chars "" (_paragraph theme setting audience chars r).2).1)) ≠ [] := by
      split_ifs with hp
      · exact hc
      · exact hp
    refine ⟨(rchoice chars "" (_paragraph theme setting audience chars r).2).1,
      (rchoice _ "" (rchoice chars "" (_paragraph theme setting audience chars r).2).2).1,
      rchoice_mem chars "" (_paragraph theme setting audience chars r).2 hc,
      rchoice_mem _ "" (rchoice chars "" (_paragraph theme setting audience chars r).2).2 hpool,
      ?_⟩
    simp only [_chapter_text, if_neg hc]
  · intro hc
    simp only [_chapter_text, if_pos hc]

/-- Witness for C6 in both branches: the two-character request gets a quoted
exchange, the empty one gets a single space. -/
theorem chapter_dialogue_witness :
    (∃ speaker friend : String,
        speaker ∈ ["Mira", "Obo"] ∧
        friend ∈ (if ["Mira", "Obo"].filter (fun c => c != speaker) = [] then ["Mira", "Obo"]
                  else ["Mira", "Obo"].filter (fun c => c != speaker)) ∧
        (_chapter_text 1 3 none none "children" ["Mira", "Obo"] []).1 =
          (_paragraph none none "children" ["Mira", "Obo"] []).1 ++ " " ++
            beats (if 1 < 3 then arcLabel 1 3 else "resolution") ++
            ("\n\n\"We can do this together,\" " ++ speaker ++ " says. \"We always could,\" " ++
              friend ++ " replies.")) ∧
    (_chapter_text 2 3 none none "children" [] []).1 =
      (_paragraph none none "children" [] []).1 ++ " " ++
        beats (if 2 < 3 then arcLabel 2 3 else "resolution") ++ " " :=
  ⟨(chapter_dialogue 1 3 none none "children" ["Mira", "Obo"] []).1 (by decide),
   (chapter_dialogue 2 3 none none "children" [] []).2 rfl⟩

/-- The chapter loop emits exactly one chapter per visited index, carrying
that index. -/
theorem genLoop_map_index (req : GenerateRequest) (idxs : List Nat) (r : Rng) :
    (genLoop req idxs r).1.map Chapter.index = idxs := by
  induction idxs generalizing r with
  | nil => rfl
  | cons i rest ih => simp [genLoop, mkChapter, ih]

/-- The chapter loop emits as many chapters as indices it visits. -/
theorem genLoop_length (req : GenerateRequest) (idxs : List Nat) (r : Rng) :
    (genLoop req idxs r).1.length = idxs.length := by
  induction idxs generalizing r with
  | nil => rfl
  | cons i rest ih => simp [genLoop, ih]

/-- Every chapter emitted by the loop has its two image fields present
exactly when `include_images` is set. -/
theorem genLoop_image_flags (req : GenerateRequest) (idxs : List Nat) (r : Rng) :
    ∀ ch ∈ (genLoop req idxs r).1,
      ch.image_prompt.isSome = req.include_images ∧
      ch.image_svg.isSome = req.include_images := by
  induction idxs generalizing r with
  | nil => intro ch h; cases h
  | cons i rest ih =>
    intro ch h
    simp only [genLoop, List.mem_cons] at h
    rcases h with h | h
    · subst h
      constructor <;>
        · show Option.isSome (if req.include_images then some _ else none) = req.include_images
          cases req.include_images <;> rfl
    · exact ih _ ch h

/-- C1: for every valid request (chapter count between 1 and 15) and every
random stream, the generated story has exactly the requested number of
chapters and their index fields are precisely `1, 2, ..., chapters`,
contiguous, duplicate-free and ascending in sequence order. -/
theorem generate_story_chapter_shape (req : GenerateRequest) (r : Rng)
    (h1 : 1 ≤ req.chapters) (h2 : req.chapters ≤ 15) :
    (generate_story req r).chapters.length = req.chapters ∧
    (generate_story req r).chapters.map Chapter.index = List.range' 1 req.chapters := by
  constructor
  · show (genLoop req (List.range' 1 req.chapters) r).1.length = req.chapters
    rw [genLoop_length, List.length_range']
  · show (genLoop req (List.range' 1 req.chapters) r).1.map Chapter.index =
      List.range' 1 req.chapters
    exact genLoop_map_index req _ r

/-- Witness for C1 at the spec's three-chapter example request. -/
theorem generate_story_chapter_shape_witness :
    (generate_story exampleRequest []).chapters.length = 3 ∧
    (generate_story exampleRequest []).chapters.map Chapter.index = List.range' 1 3 :=
  generate_story_chapter_shape exampleRequest [] (by decide) (by decide)

/-- C4: in every generated story, each chapter's `imagePrompt` and `imageSvg`
are present exactly when the request's `includeImages` flag is set; their
presence depends on nothing else. -/
theorem generate_story_image_flags (req : GenerateRequest) (r : Rng) (ch : Chapter)
    (h : ch ∈ (generate_story req r).chapters) :
    ch.image_prompt.isSome = req.include_images ∧
    ch.image_svg.isSome = req.include_images := by
  exact genLoop_image_flags req (List.range' 1 req.chapters) r ch h

/-- Witness for C4: the first chapter of a one-chapter request with images
enabled carries both image fields. -/
theorem generate_story_image_flags_witness :
    ((generate_story oneChapterRequest []).chapters.getD 0 default).image_prompt.isSome = true ∧
    ((generate_story oneChapterRequest []).chapters.getD 0 default).image_svg.isSome = true := by
  have hlen : (generate_story oneChapterRequest []).chapters.length = 1 := by
    show (genLoop oneChapterRequest (List.range' 1 oneChapterRequest.chapters) []).1.length = 1
    rw [genLoop_length, List.length_range']
    rfl
  have hpos : 0 < (generate_story oneChapterRequest []).chapters.length := by
    rw [hlen]; exact Nat.zero_lt_one
  have hmem : (generate_story oneChapterRequest []).chapters.getD 0 default ∈
      (generate_story oneChapterRequest []).chapters := by
    rw [List.getD_eq_getElem _ _ hpos]
    exact List.getElem_mem hpos
  exact generate_story_image_flags oneChapterRequest [] _ hmem

/-- The executable infix scan decides infix containment of character
lists. -/
theorem infixCheck_iff (pat l : List Char) : infixCheck pat l = true ↔ pat <:+: l := by
  induction l with
  | nil =>
    constructor
    · intro h
      have hp : pat = [] := by simpa [infixCheck, List.isEmpty_iff] using h
      subst hp
      exact List.infix_rfl
    · intro h
      have hp : pat = [] := List.eq_nil_of_infix_nil h
      subst hp
      rfl
  | cons c cs ih =>
    simp [infixCheck, Bool.or_eq_true, ih, List.isPrefixOf_iff_prefix,
      List.infix_cons_iff]

/-- C3 (amended): every chapter-mode illustration document contains the
caption line `Chapter {idx} / {total}` followed on the next line by a second
caption line whose content is the synthesizer's `title` argument with every
occurrence of `"Chapter "` removed; `generate_story` passes the request's
story title — not the chapter's title — as that argument. -/
theorem chapter_svg_caption_lines (title prompt : String) (idx total : Nat)
    (chars : List String) (p : String × String × String) :
    strContains (chapterSvgDoc title idx total prompt chars p)
      ("\n" ++ captionLine1 idx total ++ "\n" ++
        captionLine2 (pyReplace title "Chapter " "") ++ "\n") ∧
    (∀ (req : GenerateRequest) (i : Nat) (r : Rng),
      (mkChapter req i r).1.image_svg =
        if req.include_images then
          some ((_chapter_image_svg req.title i req.chapters
            (_image_prompt_for_chapter i
              (_make_chapter_title req.title i req.style req.tone)
              req.theme req.setting req.characters req.style)
            req.characters
            (_chapter_text i req.chapters req.theme req.setting req.audience
              req.characters r).2).1)
        else none) := by
  constructor
  · refine ⟨chapterSvgA ++ toString idx ++ chapterSvgB ++ p.1 ++ chapterSvgC ++ p.2.1 ++
      chapterSvgD ++ p.2.2 ++ chapterSvgE ++ toString idx ++ chapterSvgF ++
      _initials chars ++ "</text>",
      "<title>" ++ prompt ++ "</title>" ++ "\n" ++ "</svg>", ?_⟩
    simp only [chapterSvgDoc, String.append_assoc]
  · intro req i r
    rfl

/-- C3 counterexample to the claim as stated: at chapter 1 of the example
request (story title `The Lantern Walk`, 3 chapters, characters Mira and
Obo, first palette — the arguments `generate_story` passes on the empty draw
stream) the illustration document contains no caption line holding the
chapter's title with `Chapter ` stripped (`1: A New Beginning`); its second
caption line holds the story title instead. -/
theorem chapter_svg_caption_counterexample :
    ¬ strContains
        (chapterSvgDoc exampleRequest.title 1 exampleRequest.chapters
          (_image_prompt_for_chapter 1
            (_make_chapter_title exampleRequest.title 1 exampleRequest.style exampleRequest.tone)
            exampleRequest.theme exampleRequest.setting exampleRequest.characters
            exampleRequest.style)
          exampleRequest.characters (PALETTES.getD 0 ("", "", "")))
        ("\n" ++ captionLine2 (pyReplace
            (_make_chapter_title exampleRequest.title 1 exampleRequest.style exampleRequest.tone)
            "Chapter " "") ++ "\n") := by
  rw [strContains_data_iff, ← infixCheck_iff]
  simp only [Bool.not_eq_true] <;> rfl

end Storybook
